import Mathlib

/-!
Shallow embedding of two modules of the deep-object-reid repository:

* torchreid/integration/nous/monitors.py
  (PerformanceMonitor, DefaultStopCallback, DefaultMetricsMonitor)
* torchreid/data/datasets/image/globalme.py (GlobalMe.process_dir)

Conventions of the embedding:
* Python ints are modelled as Lean Int, Python floats (wall-clock times,
  running averages) as Rat, i.e. arithmetic is exact.
* time.time() is an external input: every lifecycle method that reads the
  clock receives the current time as an explicit Rat parameter.
* Python int() applied to a float truncates toward zero: pyTrunc below.
* fallible code (a regex search returning None followed by .groups(), or
  int() on a malformed string, both of which raise) is modelled by Option:
  none is "the call raised".
-/

/-- Python int(x) on a float x truncates toward zero.
Rat.floor and Rat.ceil are used because they evaluate inside the kernel. -/
def pyTrunc (q : ℚ) : ℤ := if 0 ≤ q then q.floor else q.ceil

/-- The mutable attributes of a PerformanceMonitor instance
(monitors.py, lines 174-253).  All are set by init. -/
structure PerformanceMonitor where
  total_epochs : ℤ
  num_train_steps : ℤ
  num_validation_steps : ℤ
  train_steps_passed : ℤ
  val_steps_passed : ℤ
  train_epochs_passed : ℤ
  granularity : ℚ
  start_epoch_time : ℚ
  start_batch_time : ℚ
  avg_epoch_time : ℚ
  avg_batch_time : ℚ
  avg_val_batch_time : ℚ
  deriving DecidableEq

namespace PerformanceMonitor

/-- PerformanceMonitor.init (monitors.py 175-189). -/
def init (total_epochs num_train_steps num_validation_steps : ℤ) : PerformanceMonitor where
  total_epochs := total_epochs
  num_train_steps := num_train_steps
  num_validation_steps := num_validation_steps
  train_steps_passed := 0
  val_steps_passed := 0
  train_epochs_passed := 0
  granularity := 1 / (total_epochs : ℚ)
  start_epoch_time := 0
  start_batch_time := 0
  avg_epoch_time := 0
  avg_batch_time := 0
  avg_val_batch_time := 0

/-- PerformanceMonitor.on_train_batch_begin (monitors.py 191-192); t is time.time(). -/
def on_train_batch_begin (t : ℚ) (s : PerformanceMonitor) : PerformanceMonitor :=
  { s with start_batch_time := t }

/-- PerformanceMonitor.on_train_batch_end (monitors.py 194-198); t is time.time(). -/
def on_train_batch_end (t : ℚ) (s : PerformanceMonitor) : PerformanceMonitor :=
  let train_steps_passed := s.train_steps_passed + 1
  let batch_time := t - s.start_batch_time
  { s with
    train_steps_passed := train_steps_passed
    avg_batch_time :=
      (s.avg_batch_time * ((train_steps_passed : ℚ) - 1) + batch_time) /
        (train_steps_passed : ℚ) }

/-- PerformanceMonitor.on_val_batch_begin (monitors.py 200-201); t is time.time(). -/
def on_val_batch_begin (t : ℚ) (s : PerformanceMonitor) : PerformanceMonitor :=
  { s with start_batch_time := t }

/-- PerformanceMonitor.on_val_batch_end (monitors.py 203-207); t is time.time(). -/
def on_val_batch_end (t : ℚ) (s : PerformanceMonitor) : PerformanceMonitor :=
  let val_steps_passed := s.val_steps_passed + 1
  let batch_time := t - s.start_batch_time
  { s with
    val_steps_passed := val_steps_passed
    avg_val_batch_time :=
      (s.avg_val_batch_time * ((val_steps_passed : ℚ) - 1) + batch_time) /
        (val_steps_passed : ℚ) }

/-- PerformanceMonitor.on_train_begin (monitors.py 209-211). -/
def on_train_begin (s : PerformanceMonitor) : PerformanceMonitor :=
  { s with train_steps_passed := 0, val_steps_passed := 0 }

/-- PerformanceMonitor.on_train_epoch_begin (monitors.py 216-217); t is time.time(). -/
def on_train_epoch_begin (t : ℚ) (s : PerformanceMonitor) : PerformanceMonitor :=
  { s with start_epoch_time := t }

/-- PerformanceMonitor.on_train_epoch_end (monitors.py 219-224); t is time.time(). -/
def on_train_epoch_end (t : ℚ) (s : PerformanceMonitor) : PerformanceMonitor :=
  let train_epochs_passed := s.train_epochs_passed + 1
  let epoch_time := t - s.start_epoch_time
  { s with
    val_steps_passed := 0
    train_epochs_passed := train_epochs_passed
    avg_epoch_time :=
      (s.avg_epoch_time * ((train_epochs_passed : ℚ) - 1) + epoch_time) /
        (train_epochs_passed : ℚ) }

/-- PerformanceMonitor.get_training_progress (monitors.py 226-228).
Python percent on ints with a positive right operand agrees with Int.emod. -/
def get_training_progress (s : PerformanceMonitor) : ℤ :=
  pyTrunc ((s.train_epochs_passed : ℚ) / (s.total_epochs : ℚ) * 100) +
    pyTrunc (s.granularity * ((Int.emod s.train_steps_passed s.num_train_steps : ℤ) : ℚ) /
      (s.num_train_steps : ℚ) * 100)

/-- PerformanceMonitor.get_val_progress (monitors.py 230-232).
The print call in the source writes to stdout and touches no attribute. -/
def get_val_progress (s : PerformanceMonitor) : ℤ :=
  pyTrunc ((s.val_steps_passed : ℚ) / (s.num_validation_steps : ℚ) * 100)

/-- PerformanceMonitor.get_val_eta (monitors.py 234-237).
Note the source multiplies by self.avg_batch_time (the training average). -/
def get_val_eta (s : PerformanceMonitor) : ℤ :=
  let remaining_steps := s.num_validation_steps - s.val_steps_passed
  let remaining_batch_time := (remaining_steps : ℚ) * s.avg_batch_time
  pyTrunc remaining_batch_time

/-- PerformanceMonitor.get_training_eta (monitors.py 239-253). -/
def get_training_eta (s : PerformanceMonitor) : ℤ :=
  let remaining_steps := s.num_train_steps - Int.emod s.train_steps_passed s.num_train_steps
  let remaining_epochs := s.total_epochs - s.train_epochs_passed
  let remaining_batch_time := (remaining_steps : ℚ) * s.avg_batch_time
  let remaining_epoch_time := (remaining_epochs : ℚ) * s.avg_epoch_time
  if remaining_epoch_time = 0 then
    pyTrunc (remaining_batch_time * (3 / 2))
  else
    pyTrunc (remaining_epoch_time -
      ((Int.emod s.train_steps_passed s.num_train_steps : ℚ) / (s.num_train_steps : ℚ)) *
        s.avg_epoch_time)

end PerformanceMonitor

/-- The four PerformanceMonitor getters (monitors.py 226-253) viewed as method
calls: each call produces the returned integer and the post-call attribute
record.  The bodies of the four getters contain no attribute assignment, so the
post-call record is the receiver itself. -/
inductive GetterOp where
  | trainingProgress
  | valProgress
  | valEta
  | trainingEta

/-- Calling one getter method on a PerformanceMonitor instance. -/
def getter_call (s : PerformanceMonitor) : GetterOp → ℤ × PerformanceMonitor
  | .trainingProgress => (s.get_training_progress, s)
  | .valProgress => (s.get_val_progress, s)
  | .valEta => (s.get_val_eta, s)
  | .trainingEta => (s.get_training_eta, s)

/-- Running a sequence of getter calls, keeping only the final state. -/
def run_getters (s : PerformanceMonitor) (l : List GetterOp) : PerformanceMonitor :=
  l.foldl (fun st g => (getter_call st g).2) s

/-- A concrete reachable monitor state with a nonzero epoch-time running
average but zero remaining epochs: init(1, 2, 5), one epoch containing one
train batch of duration 2, with the epoch lasting 10 seconds. -/
def c4State : PerformanceMonitor :=
  PerformanceMonitor.on_train_epoch_end 10
    (PerformanceMonitor.on_train_batch_end 2
      (PerformanceMonitor.on_train_batch_begin 0
        (PerformanceMonitor.on_train_epoch_begin 0 (PerformanceMonitor.init 1 2 5))))

/-- States of a PerformanceMonitor reachable from init with positive
parameters through any sequence of lifecycle calls, with arbitrary
wall-clock readings. -/
inductive Reach : PerformanceMonitor → Prop where
  | init (te nts nvs : ℤ) (hte : 1 ≤ te) (hnts : 1 ≤ nts) (hnvs : 1 ≤ nvs) :
      Reach (PerformanceMonitor.init te nts nvs)
  | train_begin {s} : Reach s → Reach s.on_train_begin
  | epoch_begin (t : ℚ) {s} : Reach s → Reach (s.on_train_epoch_begin t)
  | epoch_end (t : ℚ) {s} : Reach s → Reach (s.on_train_epoch_end t)
  | batch_begin (t : ℚ) {s} : Reach s → Reach (s.on_train_batch_begin t)
  | batch_end (t : ℚ) {s} : Reach s → Reach (s.on_train_batch_end t)
  | val_begin (t : ℚ) {s} : Reach s → Reach (s.on_val_batch_begin t)
  | val_end (t : ℚ) {s} : Reach s → Reach (s.on_val_batch_end t)

/-- The reachable state obtained by calling on_train_epoch_end twice after
init(1, 1, 1): train_epochs_passed is 2 with total_epochs 1. -/
def c2State : PerformanceMonitor :=
  PerformanceMonitor.on_train_epoch_end 0
    (PerformanceMonitor.on_train_epoch_end 0 (PerformanceMonitor.init 1 1 1))

/-- n consecutive on_train_batch_begin/on_train_batch_end pairs, each batch
taking exactly d seconds of wall-clock time, starting at time t. -/
def trainPairs : ℕ → ℚ → ℚ → PerformanceMonitor → PerformanceMonitor
  | 0, _, _, s => s
  | n + 1, t, d, s =>
      trainPairs n (t + d) d
        (PerformanceMonitor.on_train_batch_end (t + d) (PerformanceMonitor.on_train_batch_begin t s))

/-- The character class [-\d] of the filename pattern; \d is taken as the
ASCII digits, the only ones appearing in the dataset layout. -/
def isClassChar (c : Char) : Bool := c = '-' || c.isDigit

/-- Matching the tail _c(\d) of the pattern at the start of the list,
returning the captured digit. -/
def matchTail : List Char → Option Char
  | '_' :: 'c' :: d :: _ => if d.isDigit then some d else none
  | _ => none

/-- Greedy matching of ([-\d]+)_c(\d) with backtracking: acc holds the
reversed group-1 characters consumed so far; the group is extended while the
next character is in the class, falling back to matching the tail here. -/
def matchGreedy (acc : List Char) : List Char → Option (List Char × Char)
  | [] => none
  | c :: rest =>
    if isClassChar c then
      match matchGreedy (c :: acc) rest with
      | some r => some r
      | none => (matchTail (c :: rest)).map (fun d => (acc.reverse, d))
    else (matchTail (c :: rest)).map (fun d => (acc.reverse, d))

/-- One attempted match of ([-\d]+)_c(\d) anchored at the head of the list. -/
def matchAt : List Char → Option (List Char × Char)
  | [] => none
  | c :: rest => if isClassChar c then matchGreedy [c] rest else none

/-- re.search with pattern ([-\d]+)_c(\d) (globalme.py 78): the leftmost
position admitting a match wins, with the group matched greedily there. -/
def patternSearch : List Char → Option (List Char × Char)
  | [] => none
  | c :: rest =>
    match matchAt (c :: rest) with
    | some r => some r
    | none => patternSearch rest

/-- Numeric value of an all-digit character list. -/
def digitsVal (l : List Char) : ℕ := l.foldl (fun a c => a * 10 + (c.toNat - 48)) 0

/-- Python int() on a string drawn from the class [-\d]: an optional leading
minus sign followed by at least one digit; any other arrangement (such as
"1-2" or "-") raises ValueError, modelled as none.  The further forms int()
accepts (whitespace, a plus sign, underscores) cannot occur in a group-1
capture, whose characters all lie in [-\d]. -/
def pyIntOfString (l : List Char) : Option ℤ :=
  match l with
  | '-' :: rest =>
    if !rest.isEmpty && rest.all Char.isDigit then some (-(digitsVal rest : ℤ)) else none
  | _ =>
    if !l.isEmpty && l.all Char.isDigit then some ((digitsVal l : ℕ) : ℤ) else none

/-- Parsing one filename as the source does twice per file (globalme.py
82, 90): pattern.search(img_path).groups() then map(int, ...).  A failed
search raises AttributeError on .groups(), and int() on a malformed group
raises ValueError; both are none. -/
def parseFilename (s : String) : Option (ℤ × ℤ) :=
  match patternSearch s.data with
  | none => none
  | some (g1, g2) =>
    match pyIntOfString g1 with
    | none => none
    | some pid => some (pid, ((g2.toNat - 48 : ℕ) : ℤ))

/-- All-or-nothing map: the source loops over img_paths raise on the first
file whose parse fails, so a single failure fails the whole scan. -/
def mapOpt {α β : Type} (f : α → Option β) : List α → Option (List β)
  | [] => some []
  | a :: l =>
    match f a, mapOpt f l with
    | some b, some bs => some (b :: bs)
    | _, _ => none

namespace GlobalMe

/-- GlobalMe.process_dir (globalme.py 75-96) applied to the glob listing of
dir_path/*.jpg.  Both source loops re-run the same pure parse of each path:
the first collects the set of non-sentinel identities (pid_container) and
enumerates it into pid2label, the second emits (img_path, pid, camid)
samples, skipping pid == -1 and relabelling through pid2label when asked.
The iteration order of the Python set is implementation defined; the
embedding enumerates the distinct identities in List.dedup order, one of the
admissible orders, and pid2label pid is its position there. -/
def process_dir (img_paths : List String) (relabel : Bool) :
    Option (List (String × ℤ × ℤ)) :=
  match mapOpt parseFilename img_paths with
  | none => none
  | some parsed =>
    let pid_container : List ℤ := ((parsed.map Prod.fst).filter (fun pid => pid != -1)).dedup
    some ((img_paths.zip parsed).filterMap (fun pr =>
      if pr.2.1 = -1 then none
      else some (pr.1, (if relabel then (List.indexOf pr.2.1 pid_container : ℤ) else pr.2.1),
        pr.2.2)))

end GlobalMe

/-- DefaultStopCallback (monitors.py 256-264) carries no attributes. -/
structure DefaultStopCallback where

namespace DefaultStopCallback

/-- DefaultStopCallback.stop (monitors.py 257-258): the body is pass. -/
def stop (s : DefaultStopCallback) : DefaultStopCallback := s

/-- DefaultStopCallback.check_stop (monitors.py 260-261): the body is pass,
so the call changes nothing and returns Python None — modelled as
(unchanged state, none : Option Bool), where some b would be a bool return. -/
def check_stop (s : DefaultStopCallback) : DefaultStopCallback × Option Bool := (s, none)

/-- DefaultStopCallback.reset (monitors.py 263-264): the body is pass. -/
def reset (s : DefaultStopCallback) : DefaultStopCallback := s

end DefaultStopCallback

/-- DefaultMetricsMonitor (monitors.py 267-281): metrics_dict maps a capture
name to the ordered list of its recorded values (Python dicts preserve
insertion order, embedded as an association list). -/
structure DefaultMetricsMonitor where
  metrics_dict : List (String × List ℚ)

namespace DefaultMetricsMonitor

/-- DefaultMetricsMonitor.__init__ (monitors.py 268-269). -/
def init : DefaultMetricsMonitor := ⟨[]⟩

/-- DefaultMetricsMonitor.add_scalar (monitors.py 271-275): appends value to
the entry at capture, creating the entry if absent.  The timestamp parameter
is accepted and discarded, exactly as in the source. -/
def add_scalar (s : DefaultMetricsMonitor) (capture : String) (value : ℚ)
    (timestamp : ℤ) : DefaultMetricsMonitor :=
  if (s.metrics_dict.lookup capture).isSome then
    ⟨s.metrics_dict.map (fun kv => if kv.1 = capture then (kv.1, kv.2 ++ [value]) else kv)⟩
  else
    ⟨s.metrics_dict ++ [(capture, [value])]⟩

/-- DefaultMetricsMonitor.get_metric_values (monitors.py 277-278); the
KeyError on an unrecorded capture is none. -/
def get_metric_values (s : DefaultMetricsMonitor) (capture : String) : Option (List ℚ) :=
  s.metrics_dict.lookup capture

end DefaultMetricsMonitor

/-- Replaying a sequence of add_scalar(capture, value, timestamp) calls. -/
def run_add_scalars (s : DefaultMetricsMonitor) (calls : List (String × ℚ × ℤ)) :
    DefaultMetricsMonitor :=
  calls.foldl (fun st c => st.add_scalar c.1 c.2.1 c.2.2) s

/-- Rat.floor agrees with the floor of the FloorRing instance on ℚ. -/
theorem rat_floor_eq_floor (q : ℚ) : q.floor = ⌊q⌋ :=
  le_antisymm (Int.le_floor.2 (by exact_mod_cast Rat.le_floor.1 le_rfl))
    (Rat.le_floor.2 (Int.le_floor.1 le_rfl))

/-- On nonnegative rationals, Python int() truncation is the floor. -/
theorem pyTrunc_eq_floor {q : ℚ} (h : 0 ≤ q) : pyTrunc q = ⌊q⌋ := by
  simp [pyTrunc, h, rat_floor_eq_floor]

/-- Python int() truncation fixes integers. -/
theorem pyTrunc_intCast (z : ℤ) : pyTrunc (z : ℚ) = z := by
  by_cases h : (0 : ℚ) ≤ (z : ℚ)
  · rw [pyTrunc_eq_floor h, Int.floor_intCast]
  · simp [pyTrunc, h, Rat.ceil, Rat.den_intCast, Rat.num_intCast]

/-- C1: get_val_eta computes int((num_validation_steps - val_steps_passed) * avg_batch_time)
with the TRAINING batch-time running average; the second conjunct exhibits a state where
substituting avg_val_batch_time would give a different answer, so the defect is real. -/
theorem get_val_eta_uses_training_avg :
    (∀ s : PerformanceMonitor,
      s.get_val_eta =
        pyTrunc (((s.num_validation_steps - s.val_steps_passed : ℤ) : ℚ) * s.avg_batch_time)) ∧
    (∃ s : PerformanceMonitor,
      s.get_val_eta ≠
        pyTrunc (((s.num_validation_steps - s.val_steps_passed : ℤ) : ℚ) * s.avg_val_batch_time)) := by
  constructor
  · intro s
    rfl
  · refine ⟨⟨1, 1, 1, 0, 0, 0, 1, 0, 0, 0, 1, 0⟩, ?_⟩
    norm_num [PerformanceMonitor.get_val_eta, pyTrunc, rat_floor_eq_floor]

/-- C10: every getter leaves every attribute of the monitor unchanged, and any
number of getter calls in between does not alter the value a getter returns. -/
theorem getters_leave_state_unchanged :
    (∀ (s : PerformanceMonitor) (g : GetterOp), (getter_call s g).2 = s) ∧
    (∀ (s : PerformanceMonitor) (l : List GetterOp), run_getters s l = s) ∧
    (∀ (s : PerformanceMonitor) (l : List GetterOp) (g : GetterOp),
      (getter_call (run_getters s l) g).1 = (getter_call s g).1) := by
  have h1 : ∀ (s : PerformanceMonitor) (g : GetterOp), (getter_call s g).2 = s := by
    intro s g
    cases g <;> rfl
  have h2 : ∀ (l : List GetterOp) (s : PerformanceMonitor), run_getters s l = s := by
    intro l
    induction l with
    | nil => intro s; rfl
    | cons g t ih =>
        intro s
        show List.foldl (fun st g => (getter_call st g).2) ((getter_call s g).2) t = s
        rw [h1 s g]
        exact ih s
  exact ⟨h1, fun s l => h2 l s, fun s l g => by rw [h2 l s]⟩

/-- Evaluating the lifecycle calls of c4State attribute by attribute. -/
theorem c4State_eq : c4State = ⟨1, 2, 5, 1, 0, 1, 1, 0, 0, 10, 2, 0⟩ := by
  simp only [c4State, PerformanceMonitor.init, PerformanceMonitor.on_train_epoch_begin,
    PerformanceMonitor.on_train_batch_begin, PerformanceMonitor.on_train_batch_end,
    PerformanceMonitor.on_train_epoch_end, PerformanceMonitor.mk.injEq]
  norm_num

/-- C4 counterexample: in c4State the epoch running average is 10 (nonzero, an
epoch has completed), yet get_training_eta does not return the claim's
remaining-epochs formula: the code tests remaining_epochs * avg_epoch_time == 0,
which also holds once all epochs have passed, and then returns the 1.5-scaled
batch formula (value 3) instead of the claim's value (-5). -/
theorem get_training_eta_claim_counterexample :
    c4State.avg_epoch_time ≠ 0 ∧
    c4State.get_training_eta ≠
      pyTrunc (((c4State.total_epochs - c4State.train_epochs_passed : ℤ) : ℚ) *
          c4State.avg_epoch_time -
        ((Int.emod c4State.train_steps_passed c4State.num_train_steps : ℚ) /
            (c4State.num_train_steps : ℚ)) * c4State.avg_epoch_time) := by
  rw [c4State_eq]
  constructor
  · norm_num
  · have hL : PerformanceMonitor.get_training_eta ⟨1, 2, 5, 1, 0, 1, 1, 0, 0, 10, 2, 0⟩ = 3 := by
      norm_num [PerformanceMonitor.get_training_eta, pyTrunc, rat_floor_eq_floor]
    have hP : pyTrunc (-5 : ℚ) = -5 := by
      rw [show (-5 : ℚ) = ((-5 : ℤ) : ℚ) by norm_num, pyTrunc_intCast]
    rw [hL]
    norm_num [hP]

/-- C4 (amended): get_training_eta returns int(remaining_steps * avg_batch_time * 1.5)
exactly when remaining_epochs * avg_epoch_time = 0 (which holds when no epoch has
completed, but also when train_epochs_passed has reached total_epochs), and in
every other state returns int(remaining_epochs * avg_epoch_time -
(train_steps_passed mod num_train_steps) / num_train_steps * avg_epoch_time). -/
theorem get_training_eta_branches (s : PerformanceMonitor) :
    (((s.total_epochs - s.train_epochs_passed : ℤ) : ℚ) * s.avg_epoch_time = 0 →
      s.get_training_eta =
        pyTrunc (((s.num_train_steps - Int.emod s.train_steps_passed s.num_train_steps : ℤ) : ℚ) *
          s.avg_batch_time * (3 / 2))) ∧
    (((s.total_epochs - s.train_epochs_passed : ℤ) : ℚ) * s.avg_epoch_time ≠ 0 →
      s.get_training_eta =
        pyTrunc (((s.total_epochs - s.train_epochs_passed : ℤ) : ℚ) * s.avg_epoch_time -
          ((Int.emod s.train_steps_passed s.num_train_steps : ℚ) / (s.num_train_steps : ℚ)) *
            s.avg_epoch_time)) := by
  constructor
  · intro h
    simp only [PerformanceMonitor.get_training_eta]
    rw [if_pos h]
  · intro h
    simp only [PerformanceMonitor.get_training_eta]
    rw [if_neg h]

/-- Witness for the C4 theorem at the freshly initialised monitor init(2, 10, 5). -/
theorem get_training_eta_branches_witness :
    ((((PerformanceMonitor.init 2 10 5).total_epochs -
        (PerformanceMonitor.init 2 10 5).train_epochs_passed : ℤ) : ℚ) *
      (PerformanceMonitor.init 2 10 5).avg_epoch_time = 0) ∧
    (PerformanceMonitor.init 2 10 5).get_training_eta =
      pyTrunc ((((PerformanceMonitor.init 2 10 5).num_train_steps -
          Int.emod (PerformanceMonitor.init 2 10 5).train_steps_passed
            (PerformanceMonitor.init 2 10 5).num_train_steps : ℤ) : ℚ) *
        (PerformanceMonitor.init 2 10 5).avg_batch_time * (3 / 2)) := by
  have h0 : (((PerformanceMonitor.init 2 10 5).total_epochs -
      (PerformanceMonitor.init 2 10 5).train_epochs_passed : ℤ) : ℚ) *
      (PerformanceMonitor.init 2 10 5).avg_epoch_time = 0 := by
    norm_num [PerformanceMonitor.init]
  exact ⟨h0, (get_training_eta_branches (PerformanceMonitor.init 2 10 5)).1 h0⟩

/-- Invariant of reachable monitor states: the init parameters stay at least 1,
the counters stay nonnegative, and granularity stays 1/total_epochs. -/
theorem Reach.invariant {s : PerformanceMonitor} (h : Reach s) :
    1 ≤ s.total_epochs ∧ 1 ≤ s.num_train_steps ∧ 1 ≤ s.num_validation_steps ∧
      0 ≤ s.train_steps_passed ∧ 0 ≤ s.val_steps_passed ∧ 0 ≤ s.train_epochs_passed ∧
      s.granularity = 1 / (s.total_epochs : ℚ) := by
  induction h with
  | init te nts nvs hte hnts hnvs =>
      exact ⟨hte, hnts, hnvs, le_rfl, le_rfl, le_rfl, rfl⟩
  | train_begin _ ih =>
      obtain ⟨h1, h2, h3, h4, h5, h6, h7⟩ := ih
      exact ⟨h1, h2, h3, le_rfl, le_rfl, h6, h7⟩
  | epoch_begin t _ ih =>
      obtain ⟨h1, h2, h3, h4, h5, h6, h7⟩ := ih
      exact ⟨h1, h2, h3, h4, h5, h6, h7⟩
  | epoch_end t _ ih =>
      obtain ⟨h1, h2, h3, h4, h5, h6, h7⟩ := ih
      exact ⟨h1, h2, h3, h4, le_rfl, add_nonneg h6 zero_le_one, h7⟩
  | batch_begin t _ ih =>
      obtain ⟨h1, h2, h3, h4, h5, h6, h7⟩ := ih
      exact ⟨h1, h2, h3, h4, h5, h6, h7⟩
  | batch_end t _ ih =>
      obtain ⟨h1, h2, h3, h4, h5, h6, h7⟩ := ih
      exact ⟨h1, h2, h3, add_nonneg h4 zero_le_one, h5, h6, h7⟩
  | val_begin t _ ih =>
      obtain ⟨h1, h2, h3, h4, h5, h6, h7⟩ := ih
      exact ⟨h1, h2, h3, h4, h5, h6, h7⟩
  | val_end t _ ih =>
      obtain ⟨h1, h2, h3, h4, h5, h6, h7⟩ := ih
      exact ⟨h1, h2, h3, h4, add_nonneg h5 zero_le_one, h6, h7⟩

/-- C2 (amended): on every reachable state, get_training_progress equals
floor(train_epochs_passed/total_epochs*100) +
floor(granularity * (train_steps_passed mod num_train_steps)/num_train_steps*100)
and is nonnegative.  The upper bound 100 of the original claim is false: see the
counterexample, where two epoch ends with total_epochs = 1 give 200. -/
theorem get_training_progress_formula {s : PerformanceMonitor} (h : Reach s) :
    s.get_training_progress =
      ⌊(s.train_epochs_passed : ℚ) / (s.total_epochs : ℚ) * 100⌋ +
        ⌊s.granularity * ((Int.emod s.train_steps_passed s.num_train_steps : ℤ) : ℚ) /
          (s.num_train_steps : ℚ) * 100⌋ ∧
    0 ≤ s.get_training_progress := by
  obtain ⟨h1, h2, h3, h4, h5, h6, h7⟩ := h.invariant
  have hte : (0 : ℚ) < (s.total_epochs : ℚ) := by exact_mod_cast lt_of_lt_of_le one_pos h1
  have hnts : (0 : ℚ) < (s.num_train_steps : ℚ) := by exact_mod_cast lt_of_lt_of_le one_pos h2
  have hmod : (0 : ℤ) ≤ Int.emod s.train_steps_passed s.num_train_steps :=
    Int.emod_nonneg s.train_steps_passed (by omega)
  have ha1 : (0 : ℚ) ≤ (s.train_epochs_passed : ℚ) / (s.total_epochs : ℚ) * 100 := by
    have : (0 : ℚ) ≤ (s.train_epochs_passed : ℚ) := by exact_mod_cast h6
    positivity
  have ha2 : (0 : ℚ) ≤ s.granularity *
      ((Int.emod s.train_steps_passed s.num_train_steps : ℤ) : ℚ) /
        (s.num_train_steps : ℚ) * 100 := by
    have hg : (0 : ℚ) ≤ s.granularity := by
      rw [h7]
      positivity
    have hm : (0 : ℚ) ≤ ((Int.emod s.train_steps_passed s.num_train_steps : ℤ) : ℚ) := by
      exact_mod_cast hmod
    positivity
  constructor
  · show pyTrunc _ + pyTrunc _ = _
    rw [pyTrunc_eq_floor ha1, pyTrunc_eq_floor ha2]
  · show (0 : ℤ) ≤ pyTrunc _ + pyTrunc _
    rw [pyTrunc_eq_floor ha1, pyTrunc_eq_floor ha2]
    have := Int.floor_nonneg.2 ha1
    have := Int.floor_nonneg.2 ha2
    omega

/-- C2 counterexample: a state reachable by lifecycle calls from
init(1, 1, 1) on which get_training_progress returns 200, outside [0, 100]. -/
theorem get_training_progress_range_counterexample :
    Reach c2State ∧ c2State.get_training_progress = 200 := by
  constructor
  · exact Reach.epoch_end 0 (Reach.epoch_end 0 (Reach.init 1 1 1 le_rfl le_rfl le_rfl))
  · have he : c2State = ⟨1, 1, 1, 0, 0, 2, 1, 0, 0, 0, 0, 0⟩ := by
      simp only [c2State, PerformanceMonitor.init, PerformanceMonitor.on_train_epoch_end,
        PerformanceMonitor.mk.injEq]
      norm_num
    rw [he]
    norm_num [PerformanceMonitor.get_training_progress, pyTrunc, rat_floor_eq_floor]

/-- Witness for the C2 theorem at the freshly initialised monitor init(2, 10, 5). -/
theorem get_training_progress_formula_witness :
    Reach (PerformanceMonitor.init 2 10 5) ∧
    ((PerformanceMonitor.init 2 10 5).get_training_progress =
      ⌊((PerformanceMonitor.init 2 10 5).train_epochs_passed : ℚ) /
          ((PerformanceMonitor.init 2 10 5).total_epochs : ℚ) * 100⌋ +
        ⌊(PerformanceMonitor.init 2 10 5).granularity *
            ((Int.emod (PerformanceMonitor.init 2 10 5).train_steps_passed
              (PerformanceMonitor.init 2 10 5).num_train_steps : ℤ) : ℚ) /
          ((PerformanceMonitor.init 2 10 5).num_train_steps : ℚ) * 100⌋ ∧
      0 ≤ (PerformanceMonitor.init 2 10 5).get_training_progress) := by
  have hr : Reach (PerformanceMonitor.init 2 10 5) :=
    Reach.init 2 10 5 (by norm_num) (by norm_num) (by norm_num)
  exact ⟨hr, get_training_progress_formula hr⟩

/-- Folding a constant sample d into a running average that already equals d
keeps it at d, for any number of further batch pairs. -/
theorem trainPairs_avg_const {d : ℚ} :
    ∀ (n : ℕ) (t : ℚ) (s : PerformanceMonitor) (k : ℕ),
      s.train_steps_passed = (k : ℤ) → s.avg_batch_time = d →
      (trainPairs n t d s).avg_batch_time = d := by
  intro n
  induction n with
  | zero => intro t s k hk hd; exact hd
  | succ m ih =>
      intro t s k hk hd
      apply ih (t + d) _ (k + 1)
      · show s.train_steps_passed + 1 = ((k + 1 : ℕ) : ℤ)
        rw [hk]
        push_cast
        ring
      · show (s.avg_batch_time * (((s.train_steps_passed + 1 : ℤ) : ℚ) - 1) + (t + d - t)) /
            ((s.train_steps_passed + 1 : ℤ) : ℚ) = d
        rw [hd, hk]
        have hne : ((k : ℚ) + 1) ≠ 0 := by positivity
        push_cast
        field_simp
        ring

/-- C7: each of on_train_batch_end, on_val_batch_end and on_train_epoch_end
folds the elapsed sample into its running average exactly by
avg' = (avg*(n-1) + sample)/n where n is the just-incremented count, and after
n ≥ 1 train batch pairs of identical duration d from a fresh init, the
batch-time running average equals d exactly. -/
theorem running_average_updates :
    (∀ (t : ℚ) (s : PerformanceMonitor),
      (s.on_train_batch_end t).train_steps_passed = s.train_steps_passed + 1 ∧
      (s.on_train_batch_end t).avg_batch_time =
        (s.avg_batch_time * (((s.train_steps_passed + 1 : ℤ) : ℚ) - 1) +
            (t - s.start_batch_time)) / ((s.train_steps_passed + 1 : ℤ) : ℚ)) ∧
    (∀ (t : ℚ) (s : PerformanceMonitor),
      (s.on_val_batch_end t).val_steps_passed = s.val_steps_passed + 1 ∧
      (s.on_val_batch_end t).avg_val_batch_time =
        (s.avg_val_batch_time * (((s.val_steps_passed + 1 : ℤ) : ℚ) - 1) +
            (t - s.start_batch_time)) / ((s.val_steps_passed + 1 : ℤ) : ℚ)) ∧
    (∀ (t : ℚ) (s : PerformanceMonitor),
      (s.on_train_epoch_end t).train_epochs_passed = s.train_epochs_passed + 1 ∧
      (s.on_train_epoch_end t).avg_epoch_time =
        (s.avg_epoch_time * (((s.train_epochs_passed + 1 : ℤ) : ℚ) - 1) +
            (t - s.start_epoch_time)) / ((s.train_epochs_passed + 1 : ℤ) : ℚ)) ∧
    (∀ (te nts nvs : ℤ) (t d : ℚ) (n : ℕ), 1 ≤ n →
      (trainPairs n t d (PerformanceMonitor.init te nts nvs)).avg_batch_time = d) := by
  refine ⟨fun t s => ⟨rfl, rfl⟩, fun t s => ⟨rfl, rfl⟩, fun t s => ⟨rfl, rfl⟩, ?_⟩
  intro te nts nvs t d n hn
  match n, hn with
  | n + 1, _ =>
    show (trainPairs n (t + d) d
      (PerformanceMonitor.on_train_batch_end (t + d)
        (PerformanceMonitor.on_train_batch_begin t
          (PerformanceMonitor.init te nts nvs)))).avg_batch_time = d
    apply trainPairs_avg_const n (t + d) _ 1
    · show (0 : ℤ) + 1 = ((1 : ℕ) : ℤ)
      norm_num
    · show ((0 : ℚ) * ((((0 : ℤ) + 1 : ℤ) : ℚ) - 1) + (t + d - t)) /
          (((0 : ℤ) + 1 : ℤ) : ℚ) = d
      push_cast
      ring

/-- Witness for C7, matching the scenario of the spec: init(2, 10, 5) and
10 batch pairs each of duration 7 seconds yield avg_batch_time = 7. -/
theorem running_average_updates_witness :
    (1 : ℕ) ≤ 10 ∧ (trainPairs 10 0 7 (PerformanceMonitor.init 2 10 5)).avg_batch_time = 7 :=
  ⟨by norm_num, running_average_updates.2.2.2 2 10 5 0 7 10 (by norm_num)⟩

/-- If one element's parse fails, the whole all-or-nothing map fails. -/
theorem mapOpt_eq_none_of_mem {α β : Type} {f : α → Option β} {l : List α} {a : α}
    (ha : a ∈ l) (hf : f a = none) : mapOpt f l = none := by
  induction l with
  | nil => cases ha
  | cons b t ih =>
      show (match f b, mapOpt f t with
        | some c, some cs => some (c :: cs)
        | _, _ => none) = none
      rcases List.mem_cons.1 ha with rfl | ha'
      · rw [hf]
      · rw [ih ha']
        cases f b <;> rfl

/-- A successful all-or-nothing map has the same length as its input and its
entries are the successful values of the entries of the input, in order. -/
theorem mapOpt_some_spec {α β : Type} {f : α → Option β} :
    ∀ {l : List α} {l' : List β}, mapOpt f l = some l' →
      l.length = l'.length ∧ ∀ pr ∈ l.zip l', f pr.1 = some pr.2 := by
  intro l
  induction l with
  | nil =>
      intro l' h
      cases (Option.some.inj h)
      exact ⟨rfl, by intro pr hpr; cases hpr⟩
  | cons a t ih =>
      intro l' h
      cases hfa : f a with
      | none =>
          exfalso
          have hnone : mapOpt f (a :: t) = none := by
            show (match f a, mapOpt f t with
              | some c, some cs => some (c :: cs)
              | _, _ => none) = none
            rw [hfa]
          rw [hnone] at h
          cases h
      | some b =>
          cases hmt : mapOpt f t with
          | none =>
              exfalso
              have hnone : mapOpt f (a :: t) = none := by
                show (match f a, mapOpt f t with
                  | some c, some cs => some (c :: cs)
                  | _, _ => none) = none
                rw [hfa, hmt]
              rw [hnone] at h
              cases h
          | some bs =>
              have hcons : mapOpt f (a :: t) = some (b :: bs) := by
                show (match f a, mapOpt f t with
                  | some c, some cs => some (c :: cs)
                  | _, _ => none) = some (b :: bs)
                rw [hfa, hmt]
              rw [hcons] at h
              cases (Option.some.inj h)
              obtain ⟨ihlen, ihmem⟩ := ih hmt
              refine ⟨by simp [ihlen], ?_⟩
              intro pr hpr
              rw [List.zip_cons_cons] at hpr
              rcases List.mem_cons.1 hpr with rfl | h'
              · exact hfa
              · exact ihmem pr h'

/-- C3: a .jpg filename on which the pattern search finds no match never lets
process_dir return a successful result that omits the file: the entire scan
fails (in the source, pattern.search returns None and .groups() raises). -/
theorem process_dir_fails_on_nonmatching_filename (img_paths : List String) (relabel : Bool)
    (p : String) (hp : p ∈ img_paths) (hsearch : patternSearch p.data = none) :
    GlobalMe.process_dir img_paths relabel = none := by
  have hparse : parseFilename p = none := by
    unfold parseFilename
    rw [hsearch]
  have hmap : mapOpt parseFilename img_paths = none := mapOpt_eq_none_of_mem hp hparse
  unfold GlobalMe.process_dir
  rw [hmap]

/-- Witness for C3: a directory containing "badname.jpg" fails to scan. -/
theorem process_dir_fails_on_nonmatching_filename_witness :
    "badname.jpg" ∈ ["0007_c1.jpg", "badname.jpg"] ∧
    patternSearch ("badname.jpg").data = none ∧
    GlobalMe.process_dir ["0007_c1.jpg", "badname.jpg"] true = none := by
  refine ⟨by simp, rfl, ?_⟩
  exact process_dir_fails_on_nonmatching_filename _ true "badname.jpg" (by simp) rfl

/-- The identity values emitted by the sample loop of process_dir: the
filterMap over the zipped (path, parsed) pairs keeps exactly the non-sentinel
parsed identities, transformed by the relabel choice against a fixed label
list C, in their input order. -/
theorem zip_filterMap_pids (b : Bool) (C : List ℤ) :
    ∀ (paths : List String) (parsed : List (ℤ × ℤ)), paths.length = parsed.length →
      ((paths.zip parsed).filterMap (fun pr =>
          if pr.2.1 = -1 then none
          else some (pr.1, (if b then (List.indexOf pr.2.1 C : ℤ) else pr.2.1), pr.2.2))).map
        (fun x => x.2.1) =
      ((parsed.map Prod.fst).filter (fun pid => pid != -1)).map
        (fun pid => if b then (List.indexOf pid C : ℤ) else pid) := by
  intro paths
  induction paths with
  | nil =>
      intro parsed h
      cases parsed with
      | nil => rfl
      | cons q qt => simp at h
  | cons p pt ih =>
      intro parsed h
      cases parsed with
      | nil => simp at h
      | cons q qt =>
          have h' : pt.length = qt.length := by simpa using h
          by_cases hq : q.1 = -1
          · simpa [hq] using ih qt h'
          · simpa [hq] using ih qt h'

/-- Unfolding process_dir on a directory listing whose every file parses. -/
theorem process_dir_eq_of_mapOpt {img_paths : List String} {parsed : List (ℤ × ℤ)}
    (h : mapOpt parseFilename img_paths = some parsed) (relabel : Bool) :
    GlobalMe.process_dir img_paths relabel =
      some ((img_paths.zip parsed).filterMap (fun pr =>
        if pr.2.1 = -1 then none
        else some (pr.1,
          (if relabel then
            (List.indexOf pr.2.1
              (((parsed.map Prod.fst).filter (fun pid => pid != -1)).dedup) : ℤ)
          else pr.2.1), pr.2.2))) := by
  unfold GlobalMe.process_dir
  rw [h]

/-- C5 (amended): when every filename's parse succeeds (its pattern match
succeeds and group 1 is a valid integer literal), process_dir with
relabel=true succeeds and the set of output identity values is exactly
{0, ..., k-1} for k the number of distinct non-sentinel parsed identities,
and with relabel=false it succeeds with the raw parsed identities as output
values.  The success hypothesis is needed: see the counterexample, where a
filename matches the pattern yet the scan fails. -/
theorem process_dir_relabel_spec (img_paths : List String) (parsed : List (ℤ × ℤ))
    (h : mapOpt parseFilename img_paths = some parsed) :
    (∃ data, GlobalMe.process_dir img_paths true = some data ∧
      (data.map (fun x => x.2.1)).toFinset =
        (Finset.range
          ((((parsed.map Prod.fst).filter (fun pid => pid != -1)).dedup).length)).image
          (fun n : ℕ => (n : ℤ))) ∧
    (∃ data, GlobalMe.process_dir img_paths false = some data ∧
      data.map (fun x => x.2.1) = (parsed.map Prod.fst).filter (fun pid => pid != -1)) := by
  obtain ⟨hlen, hmem⟩ := mapOpt_some_spec h
  constructor
  · refine ⟨_, process_dir_eq_of_mapOpt h true, ?_⟩
    rw [zip_filterMap_pids true
      (((parsed.map Prod.fst).filter (fun pid => pid != -1)).dedup) img_paths parsed hlen]
    ext x
    constructor
    · intro hx
      simp only [List.mem_toFinset, List.mem_map] at hx
      obtain ⟨pid, hpid, hxe⟩ := hx
      have hpidC : pid ∈ ((parsed.map Prod.fst).filter (fun pid => pid != -1)).dedup :=
        List.mem_dedup.2 hpid
      simp only [Finset.mem_image, Finset.mem_range]
      refine ⟨List.indexOf pid (((parsed.map Prod.fst).filter (fun pid => pid != -1)).dedup),
        List.indexOf_lt_length.2 hpidC, ?_⟩
      simpa using hxe
    · intro hx
      simp only [Finset.mem_image, Finset.mem_range] at hx
      obtain ⟨n, hn, hxe⟩ := hx
      simp only [List.mem_toFinset, List.mem_map]
      have hidx : List.indexOf
          ((((parsed.map Prod.fst).filter (fun pid => pid != -1)).dedup)[n])
          (((parsed.map Prod.fst).filter (fun pid => pid != -1)).dedup) = n :=
        List.indexOf_getElem (List.nodup_dedup _) n hn
      refine ⟨(((parsed.map Prod.fst).filter (fun pid => pid != -1)).dedup)[n],
        List.mem_dedup.1 (List.getElem_mem hn), ?_⟩
      simpa [hidx] using hxe
  · refine ⟨_, process_dir_eq_of_mapOpt h false, ?_⟩
    rw [zip_filterMap_pids false
      (((parsed.map Prod.fst).filter (fun pid => pid != -1)).dedup) img_paths parsed hlen]
    simp

/-- C5 counterexample: the filename "1-2_c3.jpg" matches the pattern
([-\d]+)_c(\d) — the search succeeds with group 1 = "1-2" — yet process_dir
with relabel=true produces no output at all: int("1-2") raises ValueError,
so no dense label set is produced for this pattern-matching input. -/
theorem process_dir_relabel_claim_counterexample :
    (patternSearch ("1-2_c3.jpg").data).isSome = true ∧
    GlobalMe.process_dir ["1-2_c3.jpg"] true = none :=
  ⟨rfl, rfl⟩

/-- Witness for C5 on a directory with identities 7, -1, 7, 2. -/
theorem process_dir_relabel_spec_witness :
    mapOpt parseFilename ["0007_c1.jpg", "-1_c2.jpg", "0007_c3.jpg", "0002_c1.jpg"] =
      some [(7, 1), (-1, 2), (7, 3), (2, 1)] ∧
    ((∃ data,
      GlobalMe.process_dir ["0007_c1.jpg", "-1_c2.jpg", "0007_c3.jpg", "0002_c1.jpg"] true =
        some data ∧
      (data.map (fun x => x.2.1)).toFinset =
        (Finset.range
          ((((([((7 : ℤ), (1 : ℤ)), (-1, 2), (7, 3), (2, 1)]).map Prod.fst).filter
            (fun pid => pid != -1)).dedup).length)).image (fun n : ℕ => (n : ℤ))) ∧
    (∃ data,
      GlobalMe.process_dir ["0007_c1.jpg", "-1_c2.jpg", "0007_c3.jpg", "0002_c1.jpg"] false =
        some data ∧
      data.map (fun x => x.2.1) =
        (([((7 : ℤ), (1 : ℤ)), (-1, 2), (7, 3), (2, 1)]).map Prod.fst).filter
          (fun pid => pid != -1))) :=
  ⟨rfl, process_dir_relabel_spec _ _ rfl⟩

/-- C6: every sample of a successful process_dir output comes from a filename
whose parsed identity is not the sentinel -1, for both values of the relabel
flag; a file parsing to identity -1 is absent from the output, hence from
every split assembled out of process_dir results. -/
theorem process_dir_drops_sentinel (img_paths : List String) (relabel : Bool)
    (data : List (String × ℤ × ℤ)) (h : GlobalMe.process_dir img_paths relabel = some data) :
    ∀ x ∈ data, ∃ pid cam, parseFilename x.1 = some (pid, cam) ∧ pid ≠ -1 := by
  cases hm : mapOpt parseFilename img_paths with
  | none =>
      exfalso
      unfold GlobalMe.process_dir at h
      rw [hm] at h
      cases h
  | some parsed =>
      obtain ⟨hlen, hmem⟩ := mapOpt_some_spec hm
      rw [process_dir_eq_of_mapOpt hm relabel] at h
      intro x hx
      rw [← Option.some.inj h] at hx
      obtain ⟨pr, hpr, hfx⟩ := List.mem_filterMap.1 hx
      by_cases hq : pr.2.1 = -1
      · rw [if_pos hq] at hfx
        cases hfx
      · rw [if_neg hq] at hfx
        obtain rfl := Option.some.inj hfx
        exact ⟨pr.2.1, pr.2.2, hmem pr hpr, hq⟩

/-- Witness for C6: scanning a folder whose first file parses to identity -1
keeps only the other file, and each kept sample parses to a non-sentinel id. -/
theorem process_dir_drops_sentinel_witness :
    GlobalMe.process_dir ["-1_c2.jpg", "0003_c1.jpg"] false = some [("0003_c1.jpg", 3, 1)] ∧
    ∀ x ∈ [("0003_c1.jpg", (3 : ℤ), (1 : ℤ))],
      ∃ pid cam, parseFilename x.1 = some (pid, cam) ∧ pid ≠ -1 :=
  ⟨rfl, process_dir_drops_sentinel ["-1_c2.jpg", "0003_c1.jpg"] false _ rfl⟩

/-- C8: calling check_stop on DefaultStopCallback returns Python None — the
body is pass — and not the boolean False that the IStopCallback.check_stop
docstring (monitors.py 131-136) promises; no call changes the (empty) state.
None is merely falsy, so callers treating the result as a condition see the
permissive behavior, but the returned value is not the boolean False. -/
theorem default_check_stop_returns_none :
    (DefaultStopCallback.check_stop ⟨⟩ = (⟨⟩, none) ∧ (none : Option Bool) ≠ some false) ∧
    DefaultStopCallback.stop ⟨⟩ = ⟨⟩ ∧ DefaultStopCallback.reset ⟨⟩ = ⟨⟩ :=
  ⟨⟨rfl, by simp⟩, rfl, rfl⟩

/-- Two add_scalar call sequences with the same (capture, value) projections
drive DefaultMetricsMonitor to the same state from any start state. -/
theorem run_add_scalars_congr :
    ∀ (calls₁ calls₂ : List (String × ℚ × ℤ)) (s : DefaultMetricsMonitor),
      calls₁.map (fun c => (c.1, c.2.1)) = calls₂.map (fun c => (c.1, c.2.1)) →
      run_add_scalars s calls₁ = run_add_scalars s calls₂ := by
  intro calls₁
  induction calls₁ with
  | nil =>
      intro calls₂ s h
      have : calls₂ = [] := by
        cases calls₂ with
        | nil => rfl
        | cons c t => cases h
      rw [this]
  | cons c t ih =>
      intro calls₂ s h
      cases calls₂ with
      | nil => cases h
      | cons c' t' =>
          rw [List.map_cons, List.map_cons] at h
          obtain ⟨hc, ht⟩ := List.cons.inj h
          obtain ⟨hc1, hc2⟩ := Prod.mk.inj hc
          show run_add_scalars (s.add_scalar c.1 c.2.1 c.2.2) t =
            run_add_scalars (s.add_scalar c'.1 c'.2.1 c'.2.2) t'
          rw [hc1, hc2]
          exact ih t' _ ht

/-- C9: the values stored by DefaultMetricsMonitor depend only on the
(capture, value) components of the add_scalar call sequence: two sequences
identical except in their timestamp arguments yield identical value lists for
every capture name (the timestamp is never stored). -/
theorem add_scalar_ignores_timestamp (calls₁ calls₂ : List (String × ℚ × ℤ))
    (h : calls₁.map (fun c => (c.1, c.2.1)) = calls₂.map (fun c => (c.1, c.2.1))) :
    ∀ capture,
      (run_add_scalars DefaultMetricsMonitor.init calls₁).get_metric_values capture =
        (run_add_scalars DefaultMetricsMonitor.init calls₂).get_metric_values capture := by
  intro capture
  rw [run_add_scalars_congr calls₁ calls₂ DefaultMetricsMonitor.init h]

/-- Witness for C9: the same (name, value) stream under different timestamps
stores the same "loss" values. -/
theorem add_scalar_ignores_timestamp_witness :
    (([("loss", (1 : ℚ), (100 : ℤ)), ("loss", 2, 200)]).map (fun c => (c.1, c.2.1)) =
      ([("loss", (1 : ℚ), (5 : ℤ)), ("loss", 2, 6)]).map (fun c => (c.1, c.2.1))) ∧
    (run_add_scalars DefaultMetricsMonitor.init
        [("loss", 1, 100), ("loss", 2, 200)]).get_metric_values "loss" =
      (run_add_scalars DefaultMetricsMonitor.init
        [("loss", 1, 5), ("loss", 2, 6)]).get_metric_values "loss" :=
  ⟨rfl, add_scalar_ignores_timestamp _ _ rfl "loss"⟩
